import Mathlib

/-!
Verification of the voucher/coupon engine of the `ecommerce` repository.

The Lean definitions below are a shallow embedding of the Python sources:

* `ecommerce/extensions/voucher/utils.py` — discount calculation
  (`get_voucher_discount_info`), voucher/offer batch creation
  (`create_vouchers`, `_create_new_voucher`, `_get_or_create_offer`) and
  voucher code generation (`_generate_code_string`).
* `ecommerce/coupons/views.py` — the voucher validator (`voucher_is_valid`),
  the redemption view (`CouponRedeemView.get`) and the enrollment-code CSV
  export (`EnrollmentCodeCsvView.get`).

Decimal / float amounts are embedded as `Rat`; datetimes as `Int` timestamps
(only their ordering matters to the code).  Database lookups and calls into
external services (the enterprise API, the account API, Oscar strategy
objects) are passed in as explicit values of a "world" record: each such
field documents the call whose result it stands for.  A Python function that
can raise is embedded as a function into `Except`/`Option`, with `none`
standing for an exception that the source does not catch.
-/

/-! ## Benefits and the discount calculator (`voucher/utils.py`) -/

/-- Benefit types of Oscar's `Benefit` model as used by the repository:
`Benefit.PERCENTAGE` and `Benefit.FIXED`. -/
inductive BenefitType where
  | PERCENTAGE
  | FIXED
deriving DecidableEq, Repr

/-- The two fields of Oscar's `Benefit` model that
`get_voucher_discount_info` reads: `benefit.type` and `benefit.value`. -/
structure Benefit where
  type : BenefitType
  value : Rat
deriving DecidableEq, Repr

/-- Result dictionary of `get_voucher_discount_info`. -/
structure DiscountInfo where
  discount_percentage : Rat
  discount_value : Rat
  is_discounted : Bool
deriving DecidableEq, Repr

/-- Modelled from the spec: `get_discount_value` of
`ecommerce/extensions/offer/utils.py` is not under `src/`; the spec states
that a percentage benefit yields `discount_value = price * value / 100`. -/
def get_discount_value (discount_percentage : Rat) (product_price : Rat) : Rat :=
  product_price * discount_percentage / 100

/-- Modelled from the spec: `get_discount_percentage` of
`ecommerce/extensions/offer/utils.py` is not under `src/`; the spec states
that a fixed benefit yields the (uncapped) percentage `value / price * 100`,
which `get_voucher_discount_info` then caps at 100. -/
def get_discount_percentage (discount_value : Rat) (product_price : Rat) : Rat :=
  discount_value / product_price * 100

/-- The zero-discount dictionary returned when the benefit is missing or the
price is not positive. -/
def zeroDiscountInfo : DiscountInfo :=
  { discount_percentage := 0, discount_value := 0, is_discounted := false }

/-- Embedding of `get_voucher_discount_info(benefit, price)` of
`ecommerce/extensions/voucher/utils.py`.  `none` stands for a missing
(falsy) benefit. -/
def get_voucher_discount_info (benefit : Option Benefit) (price : Rat) : DiscountInfo :=
  match benefit with
  | some b =>
    if 0 < price then
      if b.type = BenefitType.PERCENTAGE then
        { discount_percentage := b.value
          discount_value := get_discount_value b.value price
          is_discounted := decide (b.value < 100) }
      else
        let dp := get_discount_percentage b.value price
        let cappedPercentage := if 100 < dp then (100 : Rat) else dp
        let cappedValue := if 100 < dp then price else b.value
        { discount_percentage := cappedPercentage
          discount_value := cappedValue
          is_discounted := decide (cappedPercentage < 100) }
    else zeroDiscountInfo
  | none => zeroDiscountInfo

/-- C2: for a percentage benefit of value `v` and a price `p > 0`,
`get_voucher_discount_info` returns `discount_percentage = v` and
`discount_value = p * v / 100`; the discount never exceeds the price when
`v ≤ 100`; for `v = 100` the discount equals the price and `is_discounted`
is `false`; and `is_discounted` is `true` exactly when `v < 100`. -/
theorem get_voucher_discount_info_percentage (v p : Rat) (hp : 0 < p) :
    (get_voucher_discount_info (some ⟨BenefitType.PERCENTAGE, v⟩) p).discount_percentage = v ∧
    (get_voucher_discount_info (some ⟨BenefitType.PERCENTAGE, v⟩) p).discount_value
        = p * v / 100 ∧
    (v ≤ 100 →
      (get_voucher_discount_info (some ⟨BenefitType.PERCENTAGE, v⟩) p).discount_value ≤ p) ∧
    (v = 100 →
      (get_voucher_discount_info (some ⟨BenefitType.PERCENTAGE, v⟩) p).discount_value = p ∧
      (get_voucher_discount_info (some ⟨BenefitType.PERCENTAGE, v⟩) p).is_discounted = false) ∧
    ((get_voucher_discount_info (some ⟨BenefitType.PERCENTAGE, v⟩) p).is_discounted = true
        ↔ v < 100) := by
  have hr : get_voucher_discount_info (some ⟨BenefitType.PERCENTAGE, v⟩) p
      = { discount_percentage := v, discount_value := p * v / 100,
          is_discounted := decide (v < 100) } := by
    simp [get_voucher_discount_info, if_pos hp, get_discount_value]
  rw [hr]
  refine ⟨rfl, rfl, ?_, ?_, ?_⟩
  · intro hv
    simp only
    rw [div_le_iff₀ (by norm_num : (0 : Rat) < 100)]
    nlinarith
  · intro hv
    subst hv
    constructor
    · simp only
      field_simp
    · simp
  · simp

/-- Closed witness for `get_voucher_discount_info_percentage` at `v = 100`,
`p = 50`. -/
theorem get_voucher_discount_info_percentage_witness :
    (0 : Rat) < 50 ∧
    ((get_voucher_discount_info (some ⟨BenefitType.PERCENTAGE, 100⟩) 50).discount_value = 50 ∧
      (get_voucher_discount_info (some ⟨BenefitType.PERCENTAGE, 100⟩) 50).is_discounted
        = false) :=
  ⟨by norm_num,
    (get_voucher_discount_info_percentage 100 50 (by norm_num)).2.2.2.1 rfl⟩

/-- C3: for a fixed benefit of value `v` and a price `p > 0`,
`get_voucher_discount_info` returns `discount_percentage = min 100 (v / p * 100)`
and `discount_value = min p v`, and `is_discounted` is `true` exactly when the
resulting discount percentage is below 100. -/
theorem get_voucher_discount_info_fixed (v p : Rat) (hp : 0 < p) :
    (get_voucher_discount_info (some ⟨BenefitType.FIXED, v⟩) p).discount_percentage
        = min 100 (v / p * 100) ∧
    (get_voucher_discount_info (some ⟨BenefitType.FIXED, v⟩) p).discount_value = min p v ∧
    ((get_voucher_discount_info (some ⟨BenefitType.FIXED, v⟩) p).is_discounted = true
        ↔ (get_voucher_discount_info (some ⟨BenefitType.FIXED, v⟩) p).discount_percentage
            < 100) := by
  rcases lt_or_le 100 (v / p * 100) with h | h
  · have h1 : 1 < v / p := by linarith
    have hpv : p < v := (one_lt_div hp).mp h1
    have hr : get_voucher_discount_info (some ⟨BenefitType.FIXED, v⟩) p
        = { discount_percentage := 100, discount_value := p, is_discounted := false } := by
      simp [get_voucher_discount_info, get_discount_percentage, hp, h1]
    rw [hr]
    refine ⟨?_, ?_, ?_⟩
    · rw [min_eq_left h.le]
    · rw [min_eq_left hpv.le]
    · simp
  · have h1 : ¬ (1 < v / p) := by
      rw [not_lt]
      linarith
    have hvp : v ≤ p := (div_le_one hp).mp (not_lt.mp h1)
    have hr : get_voucher_discount_info (some ⟨BenefitType.FIXED, v⟩) p
        = { discount_percentage := v / p * 100, discount_value := v,
            is_discounted := decide (v / p * 100 < 100) } := by
      simp [get_voucher_discount_info, get_discount_percentage, hp, h1]
    rw [hr]
    refine ⟨?_, ?_, ?_⟩
    · rw [min_eq_right h]
    · rw [min_eq_right hvp]
    · simp

/-- Closed witness for `get_voucher_discount_info_fixed` at `v = 30`,
`p = 20` (a fixed discount larger than the price, hence capped). -/
theorem get_voucher_discount_info_fixed_witness :
    (0 : Rat) < 20 ∧
    (get_voucher_discount_info (some ⟨BenefitType.FIXED, 30⟩) 20).discount_percentage
        = min 100 (30 / 20 * 100) ∧
    (get_voucher_discount_info (some ⟨BenefitType.FIXED, 30⟩) 20).discount_value = min 20 30 ∧
    ((get_voucher_discount_info (some ⟨BenefitType.FIXED, 30⟩) 20).is_discounted = true
        ↔ (get_voucher_discount_info (some ⟨BenefitType.FIXED, 30⟩) 20).discount_percentage
            < 100) :=
  ⟨by norm_num, get_voucher_discount_info_fixed 30 20 (by norm_num)⟩

/-! ## The voucher validator (`voucher_is_valid` of `coupons/views.py`) -/

/-- The one attribute of a voucher's linked `ConditionalOffer` that
`voucher_is_valid` reads at validation time: the result of Oscar's
`offer.get_max_applications(request.user)` (the remaining number of global
applications available to the requesting user). -/
structure RtOffer where
  maxApplications : Nat
deriving DecidableEq, Repr

/-- The attributes of an Oscar `Voucher` read by `voucher_is_valid`:
the validity window, the (precomputed) result of Oscar's
`voucher.is_available_to_user(request.user)` for the requesting user, and
the linked offers.  `isAvailableToUser`/`availabilityMessage` are the two
components of that per-user availability check. -/
structure RtVoucher where
  startDatetime : Int
  endDatetime : Int
  isAvailableToUser : Bool
  availabilityMessage : String
  offers : List RtOffer
deriving DecidableEq, Repr

/-- A candidate product as seen by `voucher_is_valid` and the redemption
view: its display title (used in the unavailability message), and the result
of `request.strategy.fetch_for_product(product).availability.is_available_to_buy`
under the requesting user's strategy. -/
structure RtProduct where
  title : String
  availableToBuy : Bool
  courseId : String
  courseName : Option String
deriving DecidableEq, Repr

/-- The request-context data `voucher_is_valid` reads:
whether `request.user.is_authenticated()`, and the current time
(`timezone.now()`). -/
structure RequestCtx where
  authenticated : Bool
  now : Int
deriving DecidableEq, Repr

/-- Oscar's `voucher.is_active()`:
`start_datetime <= now <= end_datetime` (third-party dependency semantics,
corroborated by the branch structure of `voucher_is_valid`). -/
def voucherIsActive (v : RtVoucher) (now : Int) : Bool :=
  decide (v.startDatetime ≤ now) && decide (now ≤ v.endDatetime)

/-- The final usage-exhaustion check of `voucher_is_valid`:
`offer = voucher.offers.first(); if offer.get_max_applications(request.user) == 0`.
When the voucher has no offers, `offers.first()` is `None` in Python and the
attribute access raises `AttributeError`; that uncaught exception is embedded
as `none`. -/
def voucherUsageCheck (v : RtVoucher) : Option (Bool × String) :=
  match v.offers.head? with
  | none => none
  | some offer =>
    if offer.maxApplications = 0 then
      some (false, "This coupon code is no longer available.")
    else
      some (true, "")

/-- Embedding of `voucher_is_valid(voucher, products, request)` of
`ecommerce/coupons/views.py`.  Returns `some (is_valid, msg)`, or `none`
when the Python function raises (missing first offer, claim C9). -/
def voucherIsValid (voucher : Option RtVoucher) (products : List RtProduct)
    (req : RequestCtx) : Option (Bool × String) :=
  match voucher with
  | none => some (false, "Coupon does not exist.")
  | some v =>
    if !voucherIsActive v req.now && decide (req.now < v.startDatetime) then
      some (false, "This coupon code is not yet valid.")
    else if !voucherIsActive v req.now && !decide (req.now < v.startDatetime)
        && decide (v.endDatetime < req.now) then
      some (false, "This coupon code has expired.")
    else if req.authenticated && !v.isAvailableToUser then
      some (false, v.availabilityMessage.replace "voucher" "coupon")
    else
      match products with
      | [p] =>
        if !p.availableToBuy then
          some (false, "Product [" ++ p.title ++ "] not available for purchase.")
        else voucherUsageCheck v
      | _ => voucherUsageCheck v

/-- Helper: when the voucher window contains `now`, the per-user check
passes (or the user is anonymous) and no single unavailable product is
given, `voucher_is_valid` reduces to the final usage-exhaustion check. -/
theorem voucherIsValid_eq_usageCheck (v : RtVoucher) (products : List RtProduct)
    (req : RequestCtx)
    (hs : v.startDatetime ≤ req.now) (he : req.now ≤ v.endDatetime)
    (havail : req.authenticated = true → v.isAvailableToUser = true)
    (hprods : ∀ p : RtProduct, products = [p] → p.availableToBuy = true) :
    voucherIsValid (some v) products req = voucherUsageCheck v := by
  have ha : voucherIsActive v req.now = true := by
    simp only [voucherIsActive, Bool.and_eq_true, decide_eq_true_eq]
    omega
  have h3 : (req.authenticated && !v.isAvailableToUser) = false := by
    cases hq : req.authenticated
    · simp
    · simp [havail hq]
  rcases products with _ | ⟨p, _ | ⟨q, rest⟩⟩
  · simp [voucherIsValid, ha, h3]
  · have hap := hprods p rfl
    simp [voucherIsValid, ha, h3, hap]
  · simp [voucherIsValid, ha, h3]

/-- Helper: a voucher with at least one linked offer never makes
`voucher_is_valid` raise. -/
theorem voucherIsValid_isSome_of_offers (v : RtVoucher) (products : List RtProduct)
    (req : RequestCtx) (h : v.offers ≠ []) :
    (voucherIsValid (some v) products req).isSome = true := by
  have husage : (voucherUsageCheck v).isSome = true := by
    cases ho : v.offers with
    | nil => exact absurd ho h
    | cons o rest =>
      by_cases hm : o.maxApplications = 0 <;> simp [voucherUsageCheck, ho, hm]
  simp only [voucherIsValid]
  split
  · rfl
  · split
    · rfl
    · split
      · rfl
      · split
        · split
          · rfl
          · exact husage
        · exact husage

/-- C1: `voucher_is_valid` performs its checks in order and returns the
stated result at the first failing check: (a) missing voucher; (b) start
datetime in the future; (c) end datetime in the past; (d) per-user
availability, checked only for authenticated users; (e) a single
unpurchasable product; (f) exhausted global application count; otherwise
`(True, '')`.  Anonymous requests skip check (d). -/
theorem voucher_is_valid_check_order (products : List RtProduct) (req : RequestCtx) :
    (voucherIsValid none products req = some (false, "Coupon does not exist.")) ∧
    (∀ v : RtVoucher, req.now < v.startDatetime →
      voucherIsValid (some v) products req
        = some (false, "This coupon code is not yet valid.")) ∧
    (∀ v : RtVoucher, ¬ req.now < v.startDatetime → v.endDatetime < req.now →
      voucherIsValid (some v) products req
        = some (false, "This coupon code has expired.")) ∧
    (∀ v : RtVoucher, v.startDatetime ≤ req.now → req.now ≤ v.endDatetime →
      req.authenticated = true → v.isAvailableToUser = false →
      voucherIsValid (some v) products req
        = some (false, v.availabilityMessage.replace "voucher" "coupon")) ∧
    (∀ v : RtVoucher, ∀ p : RtProduct, v.startDatetime ≤ req.now → req.now ≤ v.endDatetime →
      (req.authenticated = true → v.isAvailableToUser = true) →
      products = [p] → p.availableToBuy = false →
      voucherIsValid (some v) products req
        = some (false, "Product [" ++ p.title ++ "] not available for purchase.")) ∧
    (∀ v : RtVoucher, ∀ off : RtOffer, v.startDatetime ≤ req.now → req.now ≤ v.endDatetime →
      (req.authenticated = true → v.isAvailableToUser = true) →
      (∀ p : RtProduct, products = [p] → p.availableToBuy = true) →
      v.offers.head? = some off → off.maxApplications = 0 →
      voucherIsValid (some v) products req
        = some (false, "This coupon code is no longer available.")) ∧
    (∀ v : RtVoucher, ∀ off : RtOffer, v.startDatetime ≤ req.now → req.now ≤ v.endDatetime →
      (req.authenticated = true → v.isAvailableToUser = true) →
      (∀ p : RtProduct, products = [p] → p.availableToBuy = true) →
      v.offers.head? = some off → ¬ off.maxApplications = 0 →
      voucherIsValid (some v) products req = some (true, "")) := by
  refine ⟨rfl, ?_, ?_, ?_, ?_, ?_, ?_⟩
  · intro v h
    have hna : voucherIsActive v req.now = false := by
      simp only [voucherIsActive, Bool.and_eq_false_iff, decide_eq_false_iff_not]
      omega
    simp [voucherIsValid, hna, h]
  · intro v h1 h2
    have hna : voucherIsActive v req.now = false := by
      simp only [voucherIsActive, Bool.and_eq_false_iff, decide_eq_false_iff_not]
      omega
    simp [voucherIsValid, hna, h1, h2]
  · intro v hs he hauth hav
    have ha : voucherIsActive v req.now = true := by
      simp only [voucherIsActive, Bool.and_eq_true, decide_eq_true_eq]
      omega
    simp [voucherIsValid, ha, hauth, hav]
  · intro v p hs he havail hprod hap
    subst hprod
    have ha : voucherIsActive v req.now = true := by
      simp only [voucherIsActive, Bool.and_eq_true, decide_eq_true_eq]
      omega
    have h3 : (req.authenticated && !v.isAvailableToUser) = false := by
      cases hq : req.authenticated
      · simp
      · simp [havail hq]
    simp [voucherIsValid, ha, h3, hap]
  · intro v off hs he havail hprods hoff hmax
    rw [voucherIsValid_eq_usageCheck v products req hs he havail hprods]
    simp [voucherUsageCheck, hoff, hmax]
  · intro v off hs he havail hprods hoff hmax
    rw [voucherIsValid_eq_usageCheck v products req hs he havail hprods]
    simp [voucherUsageCheck, hoff, hmax]

/-- Closed witness for `voucher_is_valid_check_order`: a voucher inside its
window with a remaining application is valid; a not-yet-started voucher is
rejected with the not-yet-valid message. -/
theorem voucher_is_valid_check_order_witness :
    voucherIsValid
        (some { startDatetime := 0, endDatetime := 10, isAvailableToUser := true,
                availabilityMessage := "", offers := [{ maxApplications := 5 }] })
        [{ title := "Seat", availableToBuy := true, courseId := "course-v1:edX+D+1",
           courseName := some "Demo" }]
        { authenticated := true, now := 5 }
      = some (true, "") ∧
    voucherIsValid
        (some { startDatetime := 7, endDatetime := 10, isAvailableToUser := true,
                availabilityMessage := "", offers := [{ maxApplications := 5 }] })
        [{ title := "Seat", availableToBuy := true, courseId := "course-v1:edX+D+1",
           courseName := some "Demo" }]
        { authenticated := true, now := 5 }
      = some (false, "This coupon code is not yet valid.") := by
  constructor
  · exact (voucher_is_valid_check_order
        [{ title := "Seat", availableToBuy := true, courseId := "course-v1:edX+D+1",
           courseName := some "Demo" }]
        { authenticated := true, now := 5 }).2.2.2.2.2.2
      { startDatetime := 0, endDatetime := 10, isAvailableToUser := true,
        availabilityMessage := "", offers := [{ maxApplications := 5 }] }
      { maxApplications := 5 }
      (by decide) (by decide) (fun _ => rfl)
      (by intro p hp; injection hp with h1 _; subst h1; rfl)
      rfl (by decide)
  · exact ((voucher_is_valid_check_order
        [{ title := "Seat", availableToBuy := true, courseId := "course-v1:edX+D+1",
           courseName := some "Demo" }]
        { authenticated := true, now := 5 }).2.1
      { startDatetime := 7, endDatetime := 10, isAvailableToUser := true,
        availabilityMessage := "", offers := [{ maxApplications := 5 }] }
      (by decide))

/-- C9: `voucher_is_valid` is total only when the voucher has a linked
offer.  A voucher that passes the window, per-user and product checks but
has no offers makes the final usage check dereference a missing first offer
(`none`, modelling the uncaught `AttributeError`); with at least one offer
that failure is unreachable. -/
theorem voucher_is_valid_requires_offer (v : RtVoucher) (products : List RtProduct)
    (req : RequestCtx)
    (hs : v.startDatetime ≤ req.now) (he : req.now ≤ v.endDatetime)
    (havail : req.authenticated = true → v.isAvailableToUser = true)
    (hprods : ∀ p : RtProduct, products = [p] → p.availableToBuy = true) :
    (v.offers = [] → voucherIsValid (some v) products req = none) ∧
    (v.offers ≠ [] → (voucherIsValid (some v) products req).isSome = true) := by
  constructor
  · intro hnil
    rw [voucherIsValid_eq_usageCheck v products req hs he havail hprods]
    simp [voucherUsageCheck, hnil]
  · intro hne
    exact voucherIsValid_isSome_of_offers v products req hne

/-- Closed witness for `voucher_is_valid_requires_offer`: an offerless
voucher that passes every earlier check makes the validator raise. -/
theorem voucher_is_valid_requires_offer_witness :
    voucherIsValid
        (some { startDatetime := 0, endDatetime := 10, isAvailableToUser := true,
                availabilityMessage := "", offers := [] })
        [] { authenticated := false, now := 3 }
      = none :=
  (voucher_is_valid_requires_offer
      { startDatetime := 0, endDatetime := 10, isAvailableToUser := true,
        availabilityMessage := "", offers := [] }
      [] { authenticated := false, now := 3 }
      (by decide) (by decide) (by intro h; cases h)
      (by intro p hp; cases hp)).1 rfl

/-! ## Batch voucher creation (`create_vouchers` of `voucher/utils.py`) -/

/-- Oscar's voucher usage types: `Voucher.SINGLE_USE`, `Voucher.MULTI_USE`,
`Voucher.ONCE_PER_CUSTOMER`. -/
inductive VoucherUsage where
  | SINGLE_USE
  | MULTI_USE
  | ONCE_PER_CUSTOMER
deriving DecidableEq, Repr

/-- A `ConditionalOffer` as constructed by `_get_or_create_offer`: the
coupon it belongs to, its benefit, `max_global_applications` (from
`max_uses`), the consecutive `offer_number` (part of the offer name), and
the email-domain restriction.  The `Condition` is always
`COUNT`/`value=1` over the product range and is not separately modelled. -/
structure CreatedOffer where
  couponId : Nat
  benefit : Benefit
  maxGlobalApplications : Option Nat
  offerNumber : Nat
  emailDomains : Option String
deriving DecidableEq, Repr

/-- Default used only for out-of-range `List.getD` reads in statements. -/
def defaultCreatedOffer : CreatedOffer :=
  { couponId := 0, benefit := { type := BenefitType.PERCENTAGE, value := 0 },
    maxGlobalApplications := none, offerNumber := 0, emailDomains := none }

/-- A `Voucher` row as created by `_create_new_voucher`, with the offers
added to it via `voucher.offers.add(offer)`. -/
structure CreatedVoucher where
  name : String
  code : String
  usage : VoucherUsage
  startDatetime : Int
  endDatetime : Int
  offers : List CreatedOffer
deriving DecidableEq, Repr

/-- Default used only for out-of-range `List.getD` reads in statements. -/
def defaultCreatedVoucher : CreatedVoucher :=
  { name := "", code := "", usage := VoucherUsage.SINGLE_USE,
    startDatetime := 0, endDatetime := 0, offers := [] }

/-- The arguments of `create_vouchers` the embedding tracks.  Datetimes are
already-parsed `Option Int` values (`none` models a missing date; string
parsing is outside the claims); `benefitValue` is `none` when `Decimal()`
would reject the input; `code = ""` models an absent code (Python
truthiness of `code`); `maxUses` is already an integer, so the `int()`
conversion of `create_vouchers` cannot fail.  The product range (catalog /
catalog query resolution) does not influence any claim and is omitted. -/
structure VoucherParams where
  benefitType : BenefitType
  benefitValue : Option Rat
  quantity : Nat
  voucherType : VoucherUsage
  code : String
  maxUses : Option Nat
  name : String
  startDatetime : Option Int
  endDatetime : Option Int
  emailDomains : Option String
  couponId : Nat
deriving DecidableEq, Repr

/-- Embedding of `_get_or_create_offer`: rejects a missing/invalid benefit
value, otherwise yields the offer record for consecutive number
`offerNumber`. -/
def getOrCreateOffer (p : VoucherParams) (offerNumber : Nat) : Except String CreatedOffer :=
  match p.benefitValue with
  | none => .error "Failed to create Benefit. Benefit value must be a positive number or 0."
  | some bv =>
    .ok { couponId := p.couponId, benefit := { type := p.benefitType, value := bv },
          maxGlobalApplications := p.maxUses, offerNumber := offerNumber,
          emailDomains := p.emailDomains }

/-- Embedding of `_create_new_voucher(code, end_datetime, name, offer,
start_datetime, voucher_type)`.  `generatedCode` stands for the fresh code
`_generate_code_string(settings.VOUCHER_CODE_LENGTH)` would produce when no
explicit code is given. -/
def createNewVoucher (code : String) (endDatetime : Option Int) (name : String)
    (offer : CreatedOffer) (startDatetime : Option Int) (voucherType : VoucherUsage)
    (generatedCode : String) : Except String CreatedVoucher :=
  if offer.benefit.type = BenefitType.PERCENTAGE ∧ offer.benefit.value = 100 ∧ code ≠ "" then
    .error "Failed to create Voucher. Code may not be set for enrollment coupon."
  else
    let voucherCode := if code = "" then generatedCode else code
    match endDatetime, startDatetime with
    | none, _ => .error "Failed to create Voucher. Voucher end datetime field must be set."
    | some _, none => .error "Failed to create Voucher. Voucher start datetime field must be set."
    | some e, some s =>
      .ok { name := name, code := voucherCode, usage := voucherType,
            startDatetime := s, endDatetime := e, offers := [offer] }

/-- The offer-creation loop of `create_vouchers`: offers for consecutive
numbers `num, num+1, …` (`n` iterations left). -/
def createOffersGo (p : VoucherParams) : Nat → Nat → Except String (List CreatedOffer)
  | _, 0 => .ok []
  | num, n + 1 =>
    match getOrCreateOffer p num with
    | .error e => .error e
    | .ok offer =>
      match createOffersGo p (num + 1) n with
      | .error e => .error e
      | .ok rest => .ok (offer :: rest)

/-- The voucher-creation loop of `create_vouchers`: voucher `i` is linked
to `offers[i]` when `multi` and to `offers[0]` otherwise. -/
def createVouchersGo (p : VoucherParams) (offers : List CreatedOffer) (multi : Bool)
    (gen : Nat → String) : Nat → Nat → Except String (List CreatedVoucher)
  | _, 0 => .ok []
  | i, n + 1 =>
    match createNewVoucher p.code p.endDatetime p.name
        (offers.getD (if multi then i else 0) defaultCreatedOffer) p.startDatetime
        p.voucherType (gen i) with
    | .error e => .error e
    | .ok voucher =>
      match createVouchersGo p offers multi gen (i + 1) n with
      | .error e => .error e
      | .ok rest => .ok (voucher :: rest)

/-- `multi_offer` of `create_vouchers`: one offer per voucher for
`MULTI_USE` and `ONCE_PER_CUSTOMER` types. -/
def multiOffer (p : VoucherParams) : Bool :=
  (p.voucherType == VoucherUsage.MULTI_USE) || (p.voucherType == VoucherUsage.ONCE_PER_CUSTOMER)

/-- Embedding of `create_vouchers`: validates `max_uses`, creates
`quantity` offers (or a single shared one), then `quantity` vouchers, each
linked to its offer.  `gen i` stands for the random code generated for the
`i`-th voucher when no explicit code is supplied. -/
def createVouchers (p : VoucherParams) (gen : Nat → String) :
    Except String (List CreatedOffer × List CreatedVoucher) :=
  if p.maxUses.isSome && (p.voucherType == VoucherUsage.SINGLE_USE) then
    .error "Failed to create Voucher. max_uses field cannot be set for voucher type [Single use]."
  else
    match createOffersGo p 0 (if multiOffer p then p.quantity else 1) with
    | .error e => .error e
    | .ok offers =>
      match createVouchersGo p offers (multiOffer p) gen 0 p.quantity with
      | .error e => .error e
      | .ok vouchers => .ok (offers, vouchers)

/-- Helper: a successfully created voucher is linked to exactly the offer
it was built from, and carries the generated code exactly when no explicit
code was supplied. -/
theorem createNewVoucher_ok_fields (code : String) (edt : Option Int) (name : String)
    (off : CreatedOffer) (sdt : Option Int) (vt : VoucherUsage) (gen : String)
    (v : CreatedVoucher) (h : createNewVoucher code edt name off sdt vt gen = .ok v) :
    v.offers = [off] ∧ (code = "" → v.code = gen) ∧ (code ≠ "" → v.code = code) := by
  unfold createNewVoucher at h
  split at h
  · simp at h
  · cases edt with
    | none => simp at h
    | some e =>
      cases sdt with
      | none => simp at h
      | some s =>
        simp only [Except.ok.injEq] at h
        subst h
        refine ⟨rfl, ?_, ?_⟩
        · intro hc
          simp [hc]
        · intro hc
          simp [hc]

/-- Helper: length of a successful offer-creation loop. -/
theorem createOffersGo_ok_length (p : VoucherParams) :
    ∀ (n i : Nat) (l : List CreatedOffer), createOffersGo p i n = .ok l → l.length = n := by
  intro n
  induction n with
  | zero =>
    intro i l h
    simp only [createOffersGo] at h
    simp only [Except.ok.injEq] at h
    subst h
    rfl
  | succ n ih =>
    intro i l h
    simp only [createOffersGo] at h
    cases hg : getOrCreateOffer p i with
    | error e => rw [hg] at h; simp at h
    | ok o =>
      rw [hg] at h
      cases hr : createOffersGo p (i + 1) n with
      | error e => rw [hr] at h; simp at h
      | ok rest =>
        rw [hr] at h
        simp only [Except.ok.injEq] at h
        subst h
        simp [ih (i + 1) rest hr]

/-- Helper: a successful voucher-creation loop yields one voucher per
iteration, the `i+j`-th one linked to offer `i+j` (`multi`) or offer `0`. -/
theorem createVouchersGo_ok_spec (p : VoucherParams) (offers : List CreatedOffer)
    (multi : Bool) (gen : Nat → String) :
    ∀ (n i : Nat) (l : List CreatedVoucher),
      createVouchersGo p offers multi gen i n = .ok l →
      l.length = n ∧
      ∀ j, j < n → (l.getD j defaultCreatedVoucher).offers
          = [offers.getD (if multi then i + j else 0) defaultCreatedOffer] := by
  intro n
  induction n with
  | zero =>
    intro i l h
    simp only [createVouchersGo, Except.ok.injEq] at h
    subst h
    exact ⟨rfl, fun j hj => absurd hj (by omega)⟩
  | succ n ih =>
    intro i l h
    simp only [createVouchersGo] at h
    cases hv : createNewVoucher p.code p.endDatetime p.name
        (offers.getD (if multi then i else 0) defaultCreatedOffer) p.startDatetime
        p.voucherType (gen i) with
    | error e => rw [hv] at h; simp at h
    | ok v =>
      rw [hv] at h
      cases hr : createVouchersGo p offers multi gen (i + 1) n with
      | error e => rw [hr] at h; simp at h
      | ok rest =>
        rw [hr] at h
        simp only [Except.ok.injEq] at h
        subst h
        obtain ⟨hlen, hidx⟩ := ih (i + 1) rest hr
        have hvoff := (createNewVoucher_ok_fields _ _ _ _ _ _ _ _ hv).1
        constructor
        · simp [hlen]
        · intro j hj
          cases j with
          | zero =>
            simpa using hvoff
          | succ j =>
            have hj' := hidx j (by omega)
            have harith : i + 1 + j = i + (j + 1) := by omega
            rw [harith] at hj'
            simpa using hj'

/-- C4: `create_vouchers` with `max_uses` set and voucher type
`SINGLE_USE` is rejected with a validation error; no offers and no
vouchers are created (the error is raised before either loop runs). -/
theorem create_vouchers_rejects_single_use_max_uses (p : VoucherParams)
    (gen : Nat → String) (hmax : p.maxUses.isSome = true)
    (htype : p.voucherType = VoucherUsage.SINGLE_USE) :
    createVouchers p gen
      = .error "Failed to create Voucher. max_uses field cannot be set for voucher type [Single use]." := by
  simp [createVouchers, hmax, htype]

/-- Closed witness for `create_vouchers_rejects_single_use_max_uses`. -/
theorem create_vouchers_rejects_single_use_max_uses_witness :
    createVouchers
        { benefitType := BenefitType.PERCENTAGE, benefitValue := some 50, quantity := 3,
          voucherType := VoucherUsage.SINGLE_USE, code := "", maxUses := some 2,
          name := "Test voucher", startDatetime := some 0, endDatetime := some 100,
          emailDomains := none, couponId := 11 } (fun _ => "GENCODE")
      = .error "Failed to create Voucher. max_uses field cannot be set for voucher type [Single use]." :=
  create_vouchers_rejects_single_use_max_uses _ _ rfl rfl

/-- C5: a successful `create_vouchers` call returns exactly `quantity`
vouchers; `MULTI_USE`/`ONCE_PER_CUSTOMER` types get `quantity` offers with
the `i`-th voucher linked to the `i`-th offer; every other type gets a
single offer shared by all vouchers. -/
theorem create_vouchers_quantity_and_offers (p : VoucherParams) (gen : Nat → String)
    (offers : List CreatedOffer) (vouchers : List CreatedVoucher)
    (h : createVouchers p gen = .ok (offers, vouchers)) :
    vouchers.length = p.quantity ∧
    ((p.voucherType = VoucherUsage.MULTI_USE ∨ p.voucherType = VoucherUsage.ONCE_PER_CUSTOMER) →
      offers.length = p.quantity ∧
      ∀ j, j < p.quantity →
        (vouchers.getD j defaultCreatedVoucher).offers
          = [offers.getD j defaultCreatedOffer]) ∧
    (¬ (p.voucherType = VoucherUsage.MULTI_USE ∨ p.voucherType = VoucherUsage.ONCE_PER_CUSTOMER) →
      offers.length = 1 ∧
      ∀ j, j < p.quantity →
        (vouchers.getD j defaultCreatedVoucher).offers
          = [offers.getD 0 defaultCreatedOffer]) := by
  unfold createVouchers at h
  split at h
  · simp at h
  · cases ho : createOffersGo p 0 (if multiOffer p then p.quantity else 1) with
    | error e => rw [ho] at h; simp at h
    | ok offs =>
      simp only [ho] at h
      cases hvs : createVouchersGo p offs (multiOffer p) gen 0 p.quantity with
      | error e => rw [hvs] at h; simp at h
      | ok vs =>
        rw [hvs] at h
        simp only [Except.ok.injEq, Prod.mk.injEq] at h
        obtain ⟨h1, h2⟩ := h
        subst h1
        subst h2
        have hofflen := createOffersGo_ok_length p _ 0 offs ho
        obtain ⟨hvlen, hvidx⟩ := createVouchersGo_ok_spec p offs (multiOffer p) gen
          p.quantity 0 vs hvs
        refine ⟨hvlen, ?_, ?_⟩
        · intro hm
          have hmo : multiOffer p = true := by
            rcases hm with hm | hm <;> simp [multiOffer, hm]
          rw [hmo] at hofflen
          simp only [if_pos rfl] at hofflen
          refine ⟨hofflen, ?_⟩
          intro j hj
          have := hvidx j (by omega)
          rw [hmo] at this
          simpa using this
        · intro hm
          push_neg at hm
          have hmo : multiOffer p = false := by
            simp [multiOffer, hm.1, hm.2]
          rw [hmo] at hofflen
          simp at hofflen
          refine ⟨hofflen, ?_⟩
          intro j hj
          have := hvidx j (by omega)
          rw [hmo] at this
          simpa using this

/-- Concrete `create_vouchers` input for the C5 witness. -/
def cvWitnessParams : VoucherParams :=
  { benefitType := BenefitType.PERCENTAGE, benefitValue := some 50, quantity := 2,
    voucherType := VoucherUsage.MULTI_USE, code := "", maxUses := none,
    name := "Test voucher", startDatetime := some 0, endDatetime := some 100,
    emailDomains := none, couponId := 7 }

/-- Concrete code-generation stream for the C5 witness. -/
def cvWitnessGen : Nat → String := fun i => if i = 0 then "CODEA" else "CODEB"

/-- The offers `createVouchers cvWitnessParams cvWitnessGen` yields. -/
def cvWitnessOffers : List CreatedOffer :=
  [{ couponId := 7, benefit := { type := BenefitType.PERCENTAGE, value := 50 },
     maxGlobalApplications := none, offerNumber := 0, emailDomains := none },
   { couponId := 7, benefit := { type := BenefitType.PERCENTAGE, value := 50 },
     maxGlobalApplications := none, offerNumber := 1, emailDomains := none }]

/-- The vouchers `createVouchers cvWitnessParams cvWitnessGen` yields. -/
def cvWitnessVouchers : List CreatedVoucher :=
  [{ name := "Test voucher", code := "CODEA", usage := VoucherUsage.MULTI_USE,
     startDatetime := 0, endDatetime := 100, offers := [cvWitnessOffers.getD 0 defaultCreatedOffer] },
   { name := "Test voucher", code := "CODEB", usage := VoucherUsage.MULTI_USE,
     startDatetime := 0, endDatetime := 100, offers := [cvWitnessOffers.getD 1 defaultCreatedOffer] }]

/-- Closed witness for `create_vouchers_quantity_and_offers`: two
`MULTI_USE` vouchers get two offers, the second voucher linked to the
second offer. -/
theorem create_vouchers_quantity_and_offers_witness :
    createVouchers cvWitnessParams cvWitnessGen = .ok (cvWitnessOffers, cvWitnessVouchers) ∧
    cvWitnessVouchers.length = 2 ∧
    (cvWitnessVouchers.getD 1 defaultCreatedVoucher).offers
      = [cvWitnessOffers.getD 1 defaultCreatedOffer] := by
  have h : createVouchers cvWitnessParams cvWitnessGen
      = .ok (cvWitnessOffers, cvWitnessVouchers) := rfl
  refine ⟨h, ?_, ?_⟩
  · exact (create_vouchers_quantity_and_offers cvWitnessParams cvWitnessGen
      cvWitnessOffers cvWitnessVouchers h).1.trans rfl
  · exact ((create_vouchers_quantity_and_offers cvWitnessParams cvWitnessGen
      cvWitnessOffers cvWitnessVouchers h).2.1 (Or.inl rfl)).2 1 (by decide)

/-- C6: `_create_new_voucher` rejects an explicit non-empty code for a
100%-percentage (enrollment) benefit with a validation error, and on
success such a voucher carries the auto-generated code. -/
theorem create_new_voucher_enrollment_code (code : String) (edt : Option Int)
    (name : String) (off : CreatedOffer) (sdt : Option Int) (vt : VoucherUsage)
    (gen : String) (hb : off.benefit.type = BenefitType.PERCENTAGE)
    (hv : off.benefit.value = 100) :
    (code ≠ "" → createNewVoucher code edt name off sdt vt gen
        = .error "Failed to create Voucher. Code may not be set for enrollment coupon.") ∧
    (∀ v : CreatedVoucher, createNewVoucher code edt name off sdt vt gen = .ok v →
      v.code = gen) := by
  constructor
  · intro hc
    simp [createNewVoucher, hb, hv, hc]
  · intro v hok
    rcases eq_or_ne code "" with hc | hc
    · exact (createNewVoucher_ok_fields _ _ _ _ _ _ _ _ hok).2.1 hc
    · simp [createNewVoucher, hb, hv, hc] at hok

/-- Closed witness for `create_new_voucher_enrollment_code`: an explicit
code for a 100%-percentage benefit is rejected. -/
theorem create_new_voucher_enrollment_code_witness :
    createNewVoucher "MYCODE" (some 100) "Enrollment"
        { couponId := 1, benefit := { type := BenefitType.PERCENTAGE, value := 100 },
          maxGlobalApplications := none, offerNumber := 0, emailDomains := none }
        (some 0) VoucherUsage.SINGLE_USE "GENCODE"
      = .error "Failed to create Voucher. Code may not be set for enrollment coupon." :=
  (create_new_voucher_enrollment_code "MYCODE" (some 100) "Enrollment"
      { couponId := 1, benefit := { type := BenefitType.PERCENTAGE, value := 100 },
        maxGlobalApplications := none, offerNumber := 0, emailDomains := none }
      (some 0) VoucherUsage.SINGLE_USE "GENCODE" rfl rfl).1 (by decide)

/-! ## Voucher code generation (`_generate_code_string` of `voucher/utils.py`) -/

/-- The RFC 4648 base32 alphabet used by Python's `base64.b32encode`. -/
def b32alphabet : List Char :=
  ['A', 'B', 'C', 'D', 'E', 'F', 'G', 'H', 'I', 'J', 'K', 'L', 'M', 'N', 'O', 'P',
   'Q', 'R', 'S', 'T', 'U', 'V', 'W', 'X', 'Y', 'Z', '2', '3', '4', '5', '6', '7']

/-- The base32 character for a 5-bit index. -/
def b32char (n : Nat) : Char := b32alphabet.getD (n % 32) 'A'

/-- Whether a character belongs to the uppercase base32 alphabet. -/
def isB32Char (c : Char) : Bool := decide (c ∈ b32alphabet)

/-- One 5-byte quantum of base32 encoding: 40 bits to 8 characters, most
significant 5 bits first. -/
def encodeQuantum (b0 b1 b2 b3 b4 : Nat) : List Char :=
  let n := ((((b0 % 256) * 256 + b1 % 256) * 256 + b2 % 256) * 256 + b3 % 256) * 256 + b4 % 256
  [b32char (n / 2 ^ 35), b32char (n / 2 ^ 30), b32char (n / 2 ^ 25), b32char (n / 2 ^ 20),
   b32char (n / 2 ^ 15), b32char (n / 2 ^ 10), b32char (n / 2 ^ 5), b32char n]

/-- Base32-encode whole 5-byte groups of a byte list. -/
def encodeGroups : List Nat → List Char
  | b0 :: b1 :: b2 :: b3 :: b4 :: rest => encodeQuantum b0 b1 b2 b3 b4 ++ encodeGroups rest
  | _ => []

/-- Number of `=` padding characters `b32encode` appends, by input length
modulo 5 (RFC 4648 / `base64.b32encode`). -/
def b32PadLength (leftover : Nat) : Nat :=
  if leftover = 1 then 6 else if leftover = 2 then 4
  else if leftover = 3 then 3 else if leftover = 4 then 1 else 0

/-- Python's `base64.b32encode` on a byte list: zero-pad the input to a
multiple of five bytes, encode in 5-byte quanta, then replace the trailing
characters that encode only padding with `=`. -/
def b32encode (s : List Nat) : List Char :=
  let leftover := s.length % 5
  let padded := s ++ List.replicate ((5 - leftover) % 5) 0
  let raw := encodeGroups padded
  let npad := b32PadLength leftover
  raw.take (raw.length - npad) ++ List.replicate npad '='

/-- Case-folded character list of a string, modelling the case-insensitive
comparison of the `code__iexact` voucher lookup. -/
def lowerChars (s : String) : List Char := s.toList.map Char.toLower

/-- Embedding of `_generate_code_string(length)`.  `digests i` stands for
the SHA-256 digest (32 bytes) of the `i`-th freshly generated random UUID;
`existing` are the codes of the vouchers already in the database
(`code__iexact` makes the collision check case-insensitive); `fuel` bounds
the recursion, with `none` standing for the (unbounded) retry recursion not
having returned within the budget. -/
def generateCodeString (existing : List String) (digests : Nat → List Nat)
    (codeLength : Nat) : Nat → Nat → Option (Except String String)
  | _, 0 => none
  | idx, fuel + 1 =>
    if codeLength < 1 then
      some (.error "Voucher code length must be a positive number.")
    else
      if existing.any
          (fun c => lowerChars c
            == lowerChars (String.mk ((b32encode (digests idx)).take codeLength))) then
        generateCodeString existing digests codeLength (idx + 1) fuel
      else
        some (.ok (String.mk ((b32encode (digests idx)).take codeLength)))

/-- Helper: every character `b32char` produces is in the base32 alphabet. -/
theorem isB32Char_b32char (n : Nat) : isB32Char (b32char n) = true := by
  have h : n % 32 < 32 := Nat.mod_lt _ (by norm_num)
  rw [b32char, List.getD_eq_getElem b32alphabet 'A' (by simpa using h)]
  have hmem : b32alphabet[n % 32] ∈ b32alphabet := List.getElem_mem _
  simp [isB32Char, hmem]

/-- Helper: all characters of one encoded quantum are alphabet characters. -/
theorem encodeQuantum_mem (b0 b1 b2 b3 b4 : Nat) :
    ∀ c ∈ encodeQuantum b0 b1 b2 b3 b4, isB32Char c = true := by
  intro c hc
  simp only [encodeQuantum, List.mem_cons, List.not_mem_nil, or_false] at hc
  rcases hc with rfl | rfl | rfl | rfl | rfl | rfl | rfl | rfl <;> exact isB32Char_b32char _

/-- Helper: all characters `encodeGroups` produces are alphabet characters. -/
theorem encodeGroups_mem : ∀ (l : List Nat), ∀ c ∈ encodeGroups l, isB32Char c = true
  | [] => by simp [encodeGroups]
  | [b0] => by simp [encodeGroups]
  | [b0, b1] => by simp [encodeGroups]
  | [b0, b1, b2] => by simp [encodeGroups]
  | [b0, b1, b2, b3] => by simp [encodeGroups]
  | b0 :: b1 :: b2 :: b3 :: b4 :: rest => by
    intro c hc
    simp only [encodeGroups, List.mem_append] at hc
    rcases hc with h | h
    · exact encodeQuantum_mem b0 b1 b2 b3 b4 c h
    · exact encodeGroups_mem rest c h

/-- Helper: `encodeGroups` yields eight characters per complete 5-byte
group. -/
theorem encodeGroups_length : ∀ (l : List Nat), (encodeGroups l).length = 8 * (l.length / 5)
  | [] => by simp [encodeGroups]
  | [b0] => by simp [encodeGroups]
  | [b0, b1] => by simp [encodeGroups]
  | [b0, b1, b2] => by simp [encodeGroups]
  | [b0, b1, b2, b3] => by simp [encodeGroups]
  | b0 :: b1 :: b2 :: b3 :: b4 :: rest => by
    have ih := encodeGroups_length rest
    simp only [encodeGroups, List.length_append, ih, encodeQuantum, List.length_cons,
      List.length_nil]
    omega

/-- Helper: base32 of a 32-byte digest is 52 data characters followed by
four `=` padding characters. -/
theorem b32encode_length32 (l : List Nat) (h : l.length = 32) :
    b32encode l = (encodeGroups (l ++ [0, 0, 0])).take 52 ++ List.replicate 4 '='
      ∧ ((encodeGroups (l ++ [0, 0, 0])).take 52).length = 52 := by
  have hraw : (encodeGroups (l ++ [0, 0, 0])).length = 56 := by
    rw [encodeGroups_length]
    simp [h]
  constructor
  · have hb : b32encode l
        = (encodeGroups (l ++ [0, 0, 0])).take ((encodeGroups (l ++ [0, 0, 0])).length - 4)
          ++ List.replicate 4 '=' := by
      simp only [b32encode, h, b32PadLength]
      norm_num
      rw [show List.replicate 3 (0 : Nat) = [0, 0, 0] from rfl]
    rw [hb, hraw]
  · rw [List.length_take, hraw]
    norm_num

/-- C7 (amended): for every requested length between 1 and 52, a
successful `_generate_code_string` run returns a code of exactly that
length whose characters all come from the uppercase base32 alphabet, and
the code never case-insensitively equals an existing voucher code (on a
collision a fresh code is generated from the next digest). -/
theorem generate_code_string_spec (existing : List String) (digests : Nat → List Nat)
    (codeLength idx fuel : Nat) (code : String)
    (hlo : 1 ≤ codeLength) (hhi : codeLength ≤ 52)
    (hd : ∀ i, (digests i).length = 32)
    (h : generateCodeString existing digests codeLength idx fuel = some (.ok code)) :
    code.length = codeLength ∧ (∀ c ∈ code.toList, isB32Char c = true) ∧
    ∀ e ∈ existing, ¬ lowerChars e = lowerChars code := by
  induction fuel generalizing idx with
  | zero => simp [generateCodeString] at h
  | succ n ih =>
    rw [generateCodeString] at h
    rw [if_neg (by omega)] at h
    by_cases hc : existing.any
        (fun c => lowerChars c
          == lowerChars (String.mk ((b32encode (digests idx)).take codeLength))) = true
    · rw [if_pos hc] at h
      exact ih (idx + 1) h
    · rw [if_neg hc] at h
      simp only [Option.some.injEq, Except.ok.injEq] at h
      subst h
      obtain ⟨henc, hlen52⟩ := b32encode_length32 (digests idx) (hd idx)
      have htake : (b32encode (digests idx)).take codeLength
          = ((encodeGroups (digests idx ++ [0, 0, 0])).take 52).take codeLength := by
        rw [henc, List.take_append_of_le_length (by rw [hlen52]; exact hhi)]
      refine ⟨?_, ?_, ?_⟩
      · rw [String.length_mk, htake, List.length_take, List.length_take]
        rw [encodeGroups_length]
        simp [hd idx]
        omega
      · intro c hcmem
        rw [show (String.mk ((b32encode (digests idx)).take codeLength)).toList
            = (b32encode (digests idx)).take codeLength from rfl, htake] at hcmem
        exact encodeGroups_mem _ c (List.mem_of_mem_take (List.mem_of_mem_take hcmem))
      · intro e he heq
        apply hc
        rw [List.any_eq_true]
        refine ⟨e, he, ?_⟩
        rw [heq]
        exact beq_self_eq_true _

/-- Digest stream for the C7 witness: the first UUID digest collides with
an existing code, the second does not. -/
def gcsWitnessDigests : Nat → List Nat :=
  fun i => if i = 0 then List.replicate 32 0 else 1 :: List.replicate 31 0

/-- Closed witness for `generate_code_string_spec`: with one colliding
digest, the retry produces the 4-character alphabet-only code `AEAA`. -/
theorem generate_code_string_spec_witness :
    (generateCodeString ["AAAA"] gcsWitnessDigests 4 0 2
        = some (.ok (String.mk ['A', 'E', 'A', 'A']))) ∧
    (String.mk ['A', 'E', 'A', 'A']).length = 4 ∧
    (∀ c ∈ (String.mk ['A', 'E', 'A', 'A']).toList, isB32Char c = true) ∧
    ∀ e ∈ ["AAAA"], ¬ lowerChars e = lowerChars (String.mk ['A', 'E', 'A', 'A']) := by
  have h : generateCodeString ["AAAA"] gcsWitnessDigests 4 0 2
      = some (.ok (String.mk ['A', 'E', 'A', 'A'])) := rfl
  refine ⟨h, ?_⟩
  exact generate_code_string_spec ["AAAA"] gcsWitnessDigests 4 0 2
    (String.mk ['A', 'E', 'A', 'A']) (by norm_num) (by norm_num)
    (fun i => by
      unfold gcsWitnessDigests
      split <;> simp) h

/-- C7 (counterexample): at requested length 56 the generated code is not
drawn from the uppercase base32 alphabet alone — base32 of a 32-byte
SHA-256 digest has only 52 data characters, and positions 53 to 56 are the
padding character `=`, which the slice `[0:length]` keeps. -/
theorem generate_code_string_counterexample :
    (generateCodeString [] (fun _ => List.replicate 32 0) 56 0 1
        = some (.ok (String.mk (List.replicate 52 'A' ++ List.replicate 4 '=')))) ∧
    (List.replicate 52 'A' ++ List.replicate 4 '=').all isB32Char = false := by
  constructor
  · rfl
  · rfl

/-! ## The redemption view (`CouponRedeemView.get` of `coupons/views.py`) -/

/-- The template rendered for inline redemption errors. -/
def offerErrorTemplate : String := "coupons/_offer_error.html"

/-- HTTP outcome of the redemption view: an inline template render with an
error message, the account-activation render (inactive account), or a
redirect. -/
inductive RedeemResponse where
  | render (template : String) (error : String)
  | renderAccountActivation (courseName : Option String) (userEmail : String)
  | redirect (url : String)
deriving DecidableEq, Repr

/-- Everything a single `CouponRedeemView.get` request reads, with each
database lookup or external-service call replaced by its result:

* `code`, `sku`, `receivedConsentToken`: query parameters (`""` models an
  absent or empty parameter, matching Python truthiness);
* `voucherLookup`: `Voucher.objects.get(code=code)` (`none` ~ `DoesNotExist`);
* `productLookup`: `StockRecord.objects.get(partner_sku=sku).product`;
* `emailValid`: `voucher.offers.first().is_email_valid(request.user.email)`;
* `accountActive`: `request.user.account_details(request).get('is_active')`;
* `enterpriseCustomer`: `get_enterprise_customer_from_voucher` — `.error ()`
  ~ `EnterpriseDoesNotExist`, `.ok none` ~ no enterprise customer;
* `needsConsent` / `consentToken` / `consentUrl`: the enterprise consent
  service calls (their product-course argument is read from the product,
  which the consent flow assumes to be a course seat);
* `basketTotal`: `prepare_basket(request, [product], voucher).total_excl_tax`;
* `placeFreeOrder`: `self.place_free_order(basket)` — `.ok n` is the placed
  order number, `.error ()` any exception raised during placement;
* `receiptUrl`, `checkoutErrorUrl`, `basketSummaryUrl`: URL resolution. -/
structure RedeemWorld where
  code : String
  sku : String
  req : RequestCtx
  userEmail : String
  voucherLookup : Option RtVoucher
  productLookup : Option RtProduct
  emailValid : Bool
  accountActive : Bool
  enterpriseCustomer : Except Unit (Option String)
  needsConsent : Bool
  consentToken : String
  receivedConsentToken : String
  consentUrl : String
  basketTotal : Rat
  placeFreeOrder : Except Unit String
  receiptUrl : String → String
  checkoutErrorUrl : String
  basketSummaryUrl : String

/-- The final basket/order step of the view: place a free order (redirect
to the receipt page, or to the generic checkout-error page when placement
raises), or redirect to the basket summary for non-free baskets. -/
def redeemFinalize (w : RedeemWorld) : RedeemResponse :=
  if w.basketTotal = 0 then
    match w.placeFreeOrder with
    | .ok orderNumber => .redirect (w.receiptUrl orderNumber)
    | .error _ => .redirect w.checkoutErrorUrl
  else .redirect w.basketSummaryUrl

/-- The enterprise-consent step of the view. -/
def redeemConsentStage (w : RedeemWorld) : RedeemResponse :=
  match w.enterpriseCustomer with
  | .error _ =>
    .render offerErrorTemplate "Could not find a matching Enterprise Customer for this coupon."
  | .ok none => redeemFinalize w
  | .ok (some _) =>
    if w.needsConsent then
      if w.receivedConsentToken ≠ "" then
        if w.receivedConsentToken ≠ w.consentToken then
          .render offerErrorTemplate "Invalid data sharing consent token provided."
        else redeemFinalize w
      else .redirect w.consentUrl
    else redeemFinalize w

/-- The email-domain / account-activation step of the view. -/
def redeemEligibilityStage (w : RedeemWorld) (product : RtProduct) : RedeemResponse :=
  if w.emailValid = false then
    .render offerErrorTemplate "You are not eligible to use this coupon."
  else if w.accountActive = false then
    .renderAccountActivation product.courseName w.userEmail
  else redeemConsentStage w

/-- Embedding of `CouponRedeemView.get`.  Returns `some response`, or
`none` when the Python view raises (which happens exactly when
`voucher_is_valid` dereferences a missing first offer). -/
def couponRedeemGet (w : RedeemWorld) : Option RedeemResponse :=
  if w.code = "" then some (.render offerErrorTemplate "Code not provided.")
  else if w.sku = "" then some (.render offerErrorTemplate "SKU not provided.")
  else
    match w.voucherLookup with
    | none => some (.render offerErrorTemplate ("No voucher found with code " ++ w.code))
    | some voucher =>
      match w.productLookup with
      | none => some (.render offerErrorTemplate "The product does not exist.")
      | some product =>
        match voucherIsValid (some voucher) [product] w.req with
        | none => none
        | some (validVoucher, msg) =>
          if validVoucher = false then some (.render offerErrorTemplate msg)
          else some (redeemEligibilityStage w product)

/-- C8 (amended): provided every voucher the code resolves has at least
one linked offer, the redemption view is total — every terminal failure
(missing code or SKU, unknown voucher, unknown product, invalid voucher,
ineligible email domain, inactive account, missing enterprise customer,
invalid consent token) is answered by a render, no exception propagates,
and an error during free-order placement for a zero-total basket is
answered with a redirect to the generic checkout-error page. -/
theorem coupon_redeem_error_handling (w : RedeemWorld)
    (hoffer : ∀ v : RtVoucher, w.voucherLookup = some v → v.offers ≠ []) :
    ((couponRedeemGet w).isSome = true) ∧
    (w.code = "" →
      couponRedeemGet w = some (.render offerErrorTemplate "Code not provided.")) ∧
    (w.code ≠ "" → w.sku = "" →
      couponRedeemGet w = some (.render offerErrorTemplate "SKU not provided.")) ∧
    (w.code ≠ "" → w.sku ≠ "" → w.voucherLookup = none →
      couponRedeemGet w
        = some (.render offerErrorTemplate ("No voucher found with code " ++ w.code))) ∧
    (∀ v : RtVoucher, w.code ≠ "" → w.sku ≠ "" → w.voucherLookup = some v →
      w.productLookup = none →
      couponRedeemGet w = some (.render offerErrorTemplate "The product does not exist.")) ∧
    (∀ (v : RtVoucher) (p : RtProduct) (m : String),
      w.code ≠ "" → w.sku ≠ "" → w.voucherLookup = some v → w.productLookup = some p →
      voucherIsValid (some v) [p] w.req = some (false, m) →
      couponRedeemGet w = some (.render offerErrorTemplate m)) ∧
    (∀ (v : RtVoucher) (p : RtProduct) (m : String),
      w.code ≠ "" → w.sku ≠ "" → w.voucherLookup = some v → w.productLookup = some p →
      voucherIsValid (some v) [p] w.req = some (true, m) → w.emailValid = false →
      couponRedeemGet w
        = some (.render offerErrorTemplate "You are not eligible to use this coupon.")) ∧
    (∀ (v : RtVoucher) (p : RtProduct) (m : String),
      w.code ≠ "" → w.sku ≠ "" → w.voucherLookup = some v → w.productLookup = some p →
      voucherIsValid (some v) [p] w.req = some (true, m) → w.emailValid = true →
      w.accountActive = false →
      couponRedeemGet w = some (.renderAccountActivation p.courseName w.userEmail)) ∧
    (∀ (v : RtVoucher) (p : RtProduct) (m : String),
      w.code ≠ "" → w.sku ≠ "" → w.voucherLookup = some v → w.productLookup = some p →
      voucherIsValid (some v) [p] w.req = some (true, m) → w.emailValid = true →
      w.accountActive = true → w.enterpriseCustomer = .error () →
      couponRedeemGet w = some (.render offerErrorTemplate
        "Could not find a matching Enterprise Customer for this coupon.")) ∧
    (∀ (v : RtVoucher) (p : RtProduct) (m : String) (ec : String),
      w.code ≠ "" → w.sku ≠ "" → w.voucherLookup = some v → w.productLookup = some p →
      voucherIsValid (some v) [p] w.req = some (true, m) → w.emailValid = true →
      w.accountActive = true → w.enterpriseCustomer = .ok (some ec) →
      w.needsConsent = true → w.receivedConsentToken ≠ "" →
      w.receivedConsentToken ≠ w.consentToken →
      couponRedeemGet w = some (.render offerErrorTemplate
        "Invalid data sharing consent token provided.")) ∧
    (∀ (v : RtVoucher) (p : RtProduct) (m : String),
      w.code ≠ "" → w.sku ≠ "" → w.voucherLookup = some v → w.productLookup = some p →
      voucherIsValid (some v) [p] w.req = some (true, m) → w.emailValid = true →
      w.accountActive = true → w.enterpriseCustomer = .ok none →
      w.basketTotal = 0 → w.placeFreeOrder = .error () →
      couponRedeemGet w = some (.redirect w.checkoutErrorUrl)) := by
  refine ⟨?_, ?_, ?_, ?_, ?_, ?_, ?_, ?_, ?_, ?_, ?_⟩
  · simp only [couponRedeemGet]
    split
    · rfl
    · split
      · rfl
      · cases hv : w.voucherLookup with
        | none => rfl
        | some voucher =>
          cases hp : w.productLookup with
          | none => rfl
          | some product =>
            have hvv := voucherIsValid_isSome_of_offers voucher [product] w.req
              (hoffer voucher hv)
            cases hres : voucherIsValid (some voucher) [product] w.req with
            | none => rw [hres] at hvv; simp at hvv
            | some r =>
              rcases r with ⟨valid, msg⟩
              by_cases hval : valid = false <;> simp [hres, hval]
  · intro h
    simp [couponRedeemGet, h]
  · intro h1 h2
    simp [couponRedeemGet, h1, h2]
  · intro h1 h2 h3
    simp [couponRedeemGet, h1, h2, h3]
  · intro v h1 h2 h3 h4
    simp [couponRedeemGet, h1, h2, h3, h4]
  · intro v p m h1 h2 h3 h4 h5
    simp [couponRedeemGet, h1, h2, h3, h4, h5]
  · intro v p m h1 h2 h3 h4 h5 h6
    simp [couponRedeemGet, redeemEligibilityStage, h1, h2, h3, h4, h5, h6]
  · intro v p m h1 h2 h3 h4 h5 h6 h7
    simp [couponRedeemGet, redeemEligibilityStage, h1, h2, h3, h4, h5, h6, h7]
  · intro v p m h1 h2 h3 h4 h5 h6 h7 h8
    simp [couponRedeemGet, redeemEligibilityStage, redeemConsentStage,
      h1, h2, h3, h4, h5, h6, h7, h8]
  · intro v p m ec h1 h2 h3 h4 h5 h6 h7 h8 h9 h10 h11
    simp [couponRedeemGet, redeemEligibilityStage, redeemConsentStage,
      h1, h2, h3, h4, h5, h6, h7, h8, h9, h10, h11]
  · intro v p m h1 h2 h3 h4 h5 h6 h7 h8 h9 h10
    simp [couponRedeemGet, redeemEligibilityStage, redeemConsentStage, redeemFinalize,
      h1, h2, h3, h4, h5, h6, h7, h8, h9, h10]

/-- Concrete request world for the C8 witness: a valid voucher, a free
basket, and an order placement that raises. -/
def redeemWitnessWorld : RedeemWorld :=
  { code := "DEMO", sku := "SKU1",
    req := { authenticated := true, now := 5 },
    userEmail := "learner at example.com",
    voucherLookup := some
      { startDatetime := 0, endDatetime := 10, isAvailableToUser := true,
        availabilityMessage := "", offers := [{ maxApplications := 3 }] },
    productLookup := some
      { title := "Seat", availableToBuy := true, courseId := "course-v1:edX+D+1",
        courseName := some "Demo" },
    emailValid := true, accountActive := true,
    enterpriseCustomer := .ok none, needsConsent := false,
    consentToken := "", receivedConsentToken := "", consentUrl := "",
    basketTotal := 0, placeFreeOrder := .error (),
    receiptUrl := fun n => "/receipt/" ++ n,
    checkoutErrorUrl := "/checkout/error/", basketSummaryUrl := "/basket/" }

/-- Closed witness for `coupon_redeem_error_handling`: a failed free-order
placement is answered with a redirect to the checkout-error page. -/
theorem coupon_redeem_error_handling_witness :
    (∀ v : RtVoucher, redeemWitnessWorld.voucherLookup = some v → v.offers ≠ []) ∧
    couponRedeemGet redeemWitnessWorld
      = some (.redirect redeemWitnessWorld.checkoutErrorUrl) := by
  have hoffer : ∀ v : RtVoucher,
      redeemWitnessWorld.voucherLookup = some v → v.offers ≠ [] := by
    intro v hv
    simp only [redeemWitnessWorld] at hv
    injection hv with h
    subst h
    simp
  refine ⟨hoffer, ?_⟩
  exact (coupon_redeem_error_handling redeemWitnessWorld hoffer).2.2.2.2.2.2.2.2.2.2
    { startDatetime := 0, endDatetime := 10, isAvailableToUser := true,
      availabilityMessage := "", offers := [{ maxApplications := 3 }] }
    { title := "Seat", availableToBuy := true, courseId := "course-v1:edX+D+1",
      courseName := some "Demo" }
    "" (by decide) (by decide) rfl rfl rfl rfl rfl rfl rfl rfl

/-- C8 (counterexample): a redemption request whose voucher exists but has
no linked offers makes the view raise (the validator dereferences a
missing first offer) instead of rendering an error or redirecting — an
exception path other than free-order placement (the basket here is not
even free and order placement would succeed). -/
theorem coupon_redeem_counterexample :
    couponRedeemGet
      { code := "DEMO", sku := "SKU1",
        req := { authenticated := false, now := 5 },
        userEmail := "",
        voucherLookup := some
          { startDatetime := 0, endDatetime := 10, isAvailableToUser := true,
            availabilityMessage := "", offers := [] },
        productLookup := some
          { title := "Seat", availableToBuy := true, courseId := "c", courseName := none },
        emailValid := true, accountActive := true,
        enterpriseCustomer := .ok none, needsConsent := false,
        consentToken := "", receivedConsentToken := "", consentUrl := "",
        basketTotal := 100, placeFreeOrder := .ok "ORDER-1",
        receiptUrl := fun n => n, checkoutErrorUrl := "/checkout/error/",
        basketSummaryUrl := "/basket/" } = none := rfl

/-! ## Enrollment-code CSV export (`EnrollmentCodeCsvView.get`) -/

/-- The request user as the CSV view sees it: identity (for the
`request.user != order.user` comparison) and the staff flag. -/
structure CsvUser where
  id : Nat
  isStaff : Bool
deriving DecidableEq, Repr

/-- One `OrderLineVouchers` row joined with its vouchers: the line's
product title and the voucher codes. -/
structure OrderLineVoucherGroup where
  productTitle : String
  codes : List String
deriving DecidableEq, Repr

/-- An order as the CSV view reads it. -/
structure CsvOrder where
  number : String
  userId : Nat
  lineVouchers : List OrderLineVoucherGroup
deriving DecidableEq, Repr

/-- Outcome of the CSV view: `Http404`, `PermissionDenied`, or the
`text/csv` response. -/
inductive CsvResponse where
  | http404
  | permissionDenied
  | csv (contentType : String) (rows : List (List String))
deriving DecidableEq, Repr

/-- The CSV rows the view writes: the order-number header, then per
product a title row, a `Code,Redemption URL` header and one row per
voucher code. -/
def enrollmentCodeCsvRows (redeemUrl : String) (order : CsvOrder) : List (List String) :=
  [["Order Number:", order.number], []] ++
    (order.lineVouchers.flatMap fun lv =>
      [[lv.productTitle], ["Code", "Redemption URL"]] ++
        lv.codes.map (fun c => [c, redeemUrl ++ "?code=" ++ c]) ++ [[]])

/-- Embedding of `EnrollmentCodeCsvView.get(request, number)`:
`orderLookup` is `Order.objects.get(number=number)` (`none` ~
`DoesNotExist` ~ `Http404`). -/
def enrollmentCodeCsvGet (user : CsvUser) (orderLookup : Option CsvOrder)
    (redeemUrl : String) : CsvResponse :=
  match orderLookup with
  | none => .http404
  | some order =>
    if user.id ≠ order.userId ∧ user.isStaff = false then .permissionDenied
    else .csv "text/csv" (enrollmentCodeCsvRows redeemUrl order)

/-- C10: the CSV view raises `Http404` for an unknown order number,
`PermissionDenied` for a requester who is neither the order owner nor
staff, and only the owner or staff receive the `text/csv` response. -/
theorem enrollment_code_csv_access_control (user : CsvUser)
    (orderLookup : Option CsvOrder) (redeemUrl : String) :
    (orderLookup = none → enrollmentCodeCsvGet user orderLookup redeemUrl = .http404) ∧
    (∀ order : CsvOrder, orderLookup = some order → user.id ≠ order.userId →
      user.isStaff = false →
      enrollmentCodeCsvGet user orderLookup redeemUrl = .permissionDenied) ∧
    (∀ order : CsvOrder, orderLookup = some order →
      (user.id = order.userId ∨ user.isStaff = true) →
      enrollmentCodeCsvGet user orderLookup redeemUrl
        = .csv "text/csv" (enrollmentCodeCsvRows redeemUrl order)) ∧
    (∀ (order : CsvOrder) (ct : String) (rows : List (List String)),
      orderLookup = some order →
      enrollmentCodeCsvGet user orderLookup redeemUrl = .csv ct rows →
      user.id = order.userId ∨ user.isStaff = true) := by
  refine ⟨?_, ?_, ?_, ?_⟩
  · intro h
    simp [enrollmentCodeCsvGet, h]
  · intro order h h1 h2
    simp [enrollmentCodeCsvGet, h, h1, h2]
  · intro order h hd
    rcases hd with hd | hd
    · simp [enrollmentCodeCsvGet, h, hd]
    · simp [enrollmentCodeCsvGet, h, hd]
  · intro order ct rows h hres
    by_cases h1 : user.id = order.userId
    · exact Or.inl h1
    · by_cases h2 : user.isStaff = true
      · exact Or.inr h2
      · have h2f : user.isStaff = false := by
          revert h2
          cases user.isStaff <;> simp
        simp [enrollmentCodeCsvGet, h, h1, h2f] at hres

/-- Concrete order for the C10 witness. -/
def csvWitnessOrder : CsvOrder :=
  { number := "EDX-100001", userId := 1,
    lineVouchers := [{ productTitle := "Seat in Demo", codes := ["J4HDI5OAUGCSUJJ3"] }] }

/-- Closed witness for `enrollment_code_csv_access_control`: the owner
receives the CSV; a different non-staff user is denied. -/
theorem enrollment_code_csv_access_control_witness :
    (enrollmentCodeCsvGet { id := 1, isStaff := false } (some csvWitnessOrder) "/offer/"
        = .csv "text/csv" (enrollmentCodeCsvRows "/offer/" csvWitnessOrder)) ∧
    (enrollmentCodeCsvGet { id := 2, isStaff := false } (some csvWitnessOrder) "/offer/"
        = .permissionDenied) := by
  constructor
  · exact (enrollment_code_csv_access_control { id := 1, isStaff := false }
      (some csvWitnessOrder) "/offer/").2.2.1 csvWitnessOrder rfl (Or.inl rfl)
  · exact (enrollment_code_csv_access_control { id := 2, isStaff := false }
      (some csvWitnessOrder) "/offer/").2.1 csvWitnessOrder rfl (by decide) rfl
